import Mathlib

/-!
# Verification of the rosserial host-side bridge (`SerialClient.py`)

A shallow embedding of the framing codec, reader loop, writer loop and
endpoint-registry logic of `rosserial_python/SerialClient.py`, together with
proofs of the specification's claims about them.

Bytes are modelled as natural numbers (`< 256` where it matters), byte strings
as `List Nat`, and Python's fallible operations as `Except`/`Option` values.
-/

namespace RosserialPython

/-- Observable events of `SerialClient.run` / the codec: dispatches,
diagnostics publications and log lines.  Only the events the claims talk
about are recorded. -/
inductive Event where
  /-- a checksum-valid frame handed to `self.callbacks[topic_id]` -/
  | dispatched (topicId : Nat) (payload : List Nat)
  /-- `sendDiagnostics(ERROR, ERROR_MISMATCHED_PROTOCOL)` (line 698) -/
  | diagMismatchedProtocol
  /-- the `rospy.loginfo("%s, expected %s" ...)` mapping line (line 709);
      carries the `found_ver_msg` text built from the version byte -/
  | logProtocolInfo (found : String)
  /-- `rospy.loginfo("Wrong checksum for msg length ...")` (line 719) -/
  | logWrongLengthChecksum
  /-- `rospy.loginfo("wrong checksum for topic id and msg")` (line 754) -/
  | logWrongPayloadChecksum
  /-- `sendDiagnostics(ERROR, ERROR_NO_SYNC)` (line 670) -/
  | diagNoSync
  /-- `rospy.logerr("Lost sync with device, restarting NOW...")` (line 665) -/
  | logLostSync
  /-- `rospy.logerr("Unable to sync with device; ...")` (line 668) -/
  | logUnableToSync
  /-- `rospy.logerr("Tried to publish before configured, topic id %d")` (line 750) -/
  | logUnconfigured (topicId : Nat)
  /-- the `except IOError` handler at the bottom of `run` (lines 756-759);
      carries `read_step` -/
  | logRunLoopError (step : String)
  deriving DecidableEq, Repr

/-- The `protocol_ver_msgs` dictionary of `SerialClient.run` (lines 700-704):
`0xFF` and `0xFE` are the two named protocol revisions and `0xFD` has its own
entry; every other byte is absent from the dictionary. -/
def protocol_ver_msgs (b : Nat) : Option String :=
  if b = 255 then some "Rev 0 (rosserial 0.4 and earlier)"
  else if b = 254 then some "Rev 1 (rosserial 0.5+)"
  else if b = 253 then some "Some future rosserial version"
  else none

/-- The `found_ver_msg` string built in `SerialClient.run` (lines 705-708). -/
def found_ver_msg (b : Nat) : String :=
  match protocol_ver_msgs b with
  | some m => "Protocol version of client is " ++ m
  | none => "Protocol version of client is unrecognized"

/-- Result of one pass through the frame-reading part of the `run` loop
(lines 687-754), driven by the byte stream obtainable from the transport
within the read timeout. -/
inductive Attempt where
  /-- a `tryRead` came up short: `IOError`, the loop body returns.
      `step` is the `read_step` label at the failing read. -/
  | ioErr (step : String)
  /-- the body `continue`s (bad sync byte, protocol mismatch, or a failed
      checksum); `events` are the diagnostics/logs it produced and `rest`
      the unconsumed bytes. -/
  | cont (events : List Event) (rest : List Nat)
  /-- a checksum-valid frame `(topicId, payload)` was read; `rest` is the
      unconsumed byte stream. -/
  | frame (topicId : Nat) (payload : List Nat) (rest : List Nat)
  deriving DecidableEq, Repr

/-- One frame-read attempt of `SerialClient.run` (lines 687-754), embedded
over the list of bytes the transport can deliver before the read timeout
(an exhausted list models a short read, hence `IOError`).

The message length is unpacked with `struct.unpack("<hB", ...)`, i.e. as a
*signed* 16-bit value: a high length byte `≥ 0x80` makes `msg_length`
negative, and `tryRead` of a negative count loops until the timeout and
raises `IOError` (read step `data`). -/
def readAttempt : List Nat → Attempt
  | [] => .ioErr "syncflag"
  | b :: rest =>
    -- line 691: `if (flag[0] != self.header): continue`
    if b ≠ 255 then .cont [] rest
    else
      match rest with
      | [] => .ioErr "protocol"
      | v :: r2 =>
        -- lines 697-710: version byte check and diagnostics
        if v ≠ 254 then
          .cont [.diagMismatchedProtocol, .logProtocolInfo (found_ver_msg v)] r2
        else
          match r2 with
          | l0 :: l1 :: cl :: r3 =>
            -- line 718: length checksum over the three raw bytes
            if (l0 + l1 + cl) % 256 ≠ 255 then
              .cont [.logWrongLengthChecksum] r3
            else
              match r3 with
              | t0 :: t1 :: r4 =>
                -- `struct.unpack("<hB", ...)`: sign bit set ⇒ negative length
                if 128 ≤ l1 then .ioErr "data"
                else
                  let len := l0 + 256 * l1
                  if r4.length < len then .ioErr "data"
                  else
                    match r4.drop len with
                    | [] => .ioErr "data checksum"
                    | chk :: r5 =>
                      let p := r4.take len
                      -- line 744: payload checksum over topic bytes + msg + chk
                      if (t0 + t1 + p.sum + chk) % 256 = 255 then
                        .frame (t0 + 256 * t1) p r5
                      else
                        .cont [.logWrongPayloadChecksum] r5
              | _ => .ioErr "topic id"
          | _ => .ioErr "message length"

/-- The remaining input of a non-`ioErr` attempt. -/
def Attempt.rest? : Attempt → Option (List Nat)
  | .ioErr _ => none
  | .cont _ r => some r
  | .frame _ _ r => some r

/-- Any attempt that does not fail with `IOError` strictly consumes input. -/
theorem readAttempt_rest_length :
    ∀ (bs r : List Nat), (readAttempt bs).rest? = some r → r.length < bs.length := by
  intro bs r h
  match bs with
  | [] => simp [readAttempt, Attempt.rest?] at h
  | b :: tl =>
    simp only [readAttempt] at h
    split at h
    · simp only [Attempt.rest?, Option.some.injEq] at h
      subst h; simp
    · match tl with
      | [] => simp [Attempt.rest?] at h
      | v :: r2 =>
        simp only at h
        split at h
        · simp only [Attempt.rest?, Option.some.injEq] at h
          subst h; simp; omega
        · match r2 with
          | [] => simp [Attempt.rest?] at h
          | [x] => simp [Attempt.rest?] at h
          | l0 :: l1 :: cl :: r3 =>
            simp only at h
            split at h
            · simp only [Attempt.rest?, Option.some.injEq] at h
              subst h; simp; omega
            · match r3 with
              | [] => simp [Attempt.rest?] at h
              | [x] => simp [Attempt.rest?] at h
              | t0 :: t1 :: r4 =>
                simp only at h
                split at h
                · simp [Attempt.rest?] at h
                · split at h
                  · simp [Attempt.rest?] at h
                  · split at h
                    · simp [Attempt.rest?] at h
                    · rename_i heq
                      have hd := congrArg List.length heq
                      simp only [List.length_drop, List.length_cons] at hd
                      split at h <;>
                        · simp only [Attempt.rest?, Option.some.injEq] at h
                          subst h; simp; omega

/-- The Codec view of the reader: iterate `readAttempt` over a byte stream,
collecting the events of every iteration, until the stream is exhausted or a
read fails mid-frame (`IOError` makes `run` return, producing nothing more).
This is the pure content of the `while` loop of `SerialClient.run`
(lines 662-760) with the timing and locking stripped. -/
def decodeRun (bs : List Nat) : List Event :=
  match h : readAttempt bs with
  | .ioErr _ => []
  | .cont evs rest => evs ++ decodeRun rest
  | .frame t p rest => .dispatched t p :: decodeRun rest
termination_by bs.length
decreasing_by
  · exact readAttempt_rest_length bs rest (by rw [h]; rfl)
  · exact readAttempt_rest_length bs rest (by rw [h]; rfl)

/-- Errors a Python exception can contribute to the writer thread.  Only the
two kinds `SerialClient._send` can actually raise are modelled. -/
inductive PyError where
  /-- line 982 formats `"...%s" % msg`, but `_send`'s parameter is named
      `msg_bytes`: evaluating the unbound name `msg` raises `NameError`. -/
  | nameError
  /-- `struct.pack('<h', x)` with `x` outside the signed-16-bit range. -/
  | structError
  deriving DecidableEq, Repr

/-- The frame built by `SerialClient._send` (lines 985-994): header, protocol
version, little-endian length, length checksum, little-endian topic id,
payload, payload checksum, both checksums computed as `255 - (sum mod 256)`.
Callers guarantee `payload.length < 2^15` and `topic < 2^15` (`struct.pack`
with format `'<h'` raises otherwise; see `_send`). -/
def encodeFrame (topic : Nat) (payload : List Nat) : List Nat :=
  let lenB := [payload.length % 256, payload.length / 256]
  let lenChk := 255 - (lenB.sum % 256)
  let topicB := [topic % 256, topic / 256]
  let msgChk := 255 - ((topicB.sum + payload.sum) % 256)
  255 :: 254 :: lenB ++ [lenChk] ++ topicB ++ payload ++ [msgChk]

/-- `SerialClient._send` (lines 976-995): drop the message when it exceeds a
positive negotiated subscribe-buffer size, otherwise frame and write it.
The drop path is faithful to the code: the `rospy.logerr` call on line 982
interpolates the unbound name `msg` and therefore raises `NameError` before
the `return -1` is reached. -/
def _send (buffer_in : Int) (topic : Nat) (payload : List Nat) :
    Except PyError (List Nat) :=
  if buffer_in > 0 ∧ (payload.length : Int) > buffer_in then
    .error .nameError
  else if 32768 ≤ payload.length ∨ 32768 ≤ topic then
    .error .structError
  else
    .ok (encodeFrame topic payload)

/-- An item of the write queue: either raw frame bytes the Session built
itself (`write_queue.put(bytes)`) or a `(topic, message)` tuple from `send`. -/
inductive WItem where
  | raw (bs : List Nat)
  | msg (topic : Nat) (payload : List Nat)
  deriving DecidableEq, Repr

/-- The bytes of the *request topics* control frame
(`SerialClient.requestTopics`, line 616):
`header + protocol_ver + b"\x00\x00\xff\x00\x00\xff"`. -/
def requestTopicsBytes : List Nat := [255, 254, 0, 0, 255, 0, 0, 255]

/-- The write queue as `SerialClient.__init__` leaves it: the only item put
before `run` starts is the *request topics* frame (line 600 calls
`requestTopics`, which enqueues the literal bytes). -/
def initWriteQueue : List WItem := [.raw requestTopicsBytes]

/-- The writer loop `SerialClient.processWriteQueue` (lines 997-1021) over a
queue snapshot: returns the sequence of `_write` payloads, in queue order,
and the exception (if any) that escaped the loop and killed the thread.
`SerialTimeoutException` retries and `RuntimeError` breaks are the only
handled exceptions; anything else (for instance the `NameError` of `_send`'s
oversize path) propagates and terminates the thread, leaving the remaining
queue items unprocessed. -/
def processWriteQueue (buffer_in : Int) :
    List WItem → List (List Nat) × Option PyError
  | [] => ([], none)
  | .raw bs :: rest =>
    let r := processWriteQueue buffer_in rest
    (bs :: r.1, r.2)
  | .msg t p :: rest =>
    match _send buffer_in t p with
    | .ok bs =>
      let r := processWriteQueue buffer_in rest
      (bs :: r.1, r.2)
    | .error e => ([], some e)

/-- `setPublishSize` (lines 762-765): the negotiated publish-buffer size is
assigned only while the stored value is negative. -/
def setPublishSize (buffer_out : Int) (size : Nat) : Int :=
  if buffer_out < 0 then (size : Int) else buffer_out

/-- `setSubscribeSize` (lines 767-770): the negotiated subscribe-buffer size
is assigned only while the stored value is negative. -/
def setSubscribeSize (buffer_in : Int) (size : Nat) : Int :=
  if buffer_in < 0 then (size : Int) else buffer_in

/-- `self.buffer_out = -1` (line 582). -/
def initBufferOut : Int := -1

/-- `self.buffer_in = -1` (line 583). -/
def initBufferIn : Int := -1

/-- The per-session reader state of `SerialClient`: the fields of `__init__`
the reader loop consults or updates.  Times are naturals (`rospy.Time`).
`knownIds` stands for the key set of the `self.callbacks` dictionary. -/
structure SessionState where
  synced : Bool
  lastsync : Nat
  lastsyncLost : Nat
  lastsyncSuccess : Nat
  timeout : Nat
  writeQueue : List WItem
  knownIds : List Nat
  deriving DecidableEq, Repr

/-- The state `__init__` (lines 528-601) hands to `run`: not synced, the
sync clock set to the construction time (line 601, after `requestTopics`
already enqueued its frame). -/
def initState (now timeout : Nat) (ids : List Nat) : SessionState :=
  { synced := false
    lastsync := now
    lastsyncLost := 0
    lastsyncSuccess := 0
    timeout := timeout
    writeQueue := initWriteQueue
    knownIds := ids }

/-- Outcome of one iteration of the reader loop body. -/
inductive IterResult where
  /-- the body executed a `return`: the session terminates -/
  | ret (s : SessionState) (events : List Event)
  /-- the body reached the bottom or a `continue`; `rest` is the input the
      iteration did not consume -/
  | cont (s : SessionState) (rest : List Nat) (events : List Event)
  deriving DecidableEq, Repr

/-- The session state an iteration result carries. -/
def IterResult.state : IterResult → SessionState
  | .ret s _ => s
  | .cont s _ _ => s

/-- The events an iteration result carries. -/
def IterResult.events : IterResult → List Event
  | .ret _ evs => evs
  | .cont _ _ evs => evs

/-- The frame-reading part of a reader iteration (lines 677-759): an empty
available stream is the `inWaiting() < 1` path (sleep and continue); a short
read raises `IOError` and the `except` handler at the bottom returns.  On a
checksum-valid frame the code sets `synced = True` and `lastsync_success`
before dispatching; a `KeyError` from the callback table logs and re-sends
*request topics*.  (Side effects performed inside an installed callback, such
as `handleTimeRequest` refreshing `lastsync`, are not modelled.) -/
def readBody (s : SessionState) (now : Nat) (avail : List Nat)
    (evs : List Event) : IterResult :=
  if avail.isEmpty then .cont s [] evs
  else
    match readAttempt avail with
    | .ioErr step => .ret s (evs ++ [.logRunLoopError step])
    | .cont evs2 rest => .cont s rest (evs ++ evs2)
    | .frame t p rest =>
      let s1 := { s with synced := true, lastsyncSuccess := now }
      if t ∈ s.knownIds then
        .cont s1 rest (evs ++ [.dispatched t p])
      else
        .cont { s1 with writeQueue := s1.writeQueue ++ [.raw requestTopicsBytes] }
          rest (evs ++ [.logUnconfigured t])

/-- One iteration of the reader loop body of `SerialClient.run`
(lines 663-759), entered with the loop guard satisfied.  The sync-budget
check comes first: if the budget is exhausted and the session was synced the
body returns; otherwise it publishes the `NO_SYNC` diagnostic, re-enqueues
the *request topics* frame and refreshes `lastsync`, then — there being no
`continue` in that branch — falls through to the frame-reading part. -/
def readerIteration (s : SessionState) (now : Nat) (avail : List Nat) :
    IterResult :=
  if 3 * s.timeout < now - s.lastsync then
    if s.synced then .ret s [.logLostSync]
    else
      readBody
        { s with
          lastsyncLost := now
          writeQueue := s.writeQueue ++ [.raw requestTopicsBytes]
          lastsync := now }
        now avail [.logUnableToSync, .diagNoSync]
  else readBody s now avail []

/-- The payload of the negotiation messages (`rosserial_msgs/TopicInfo`). -/
structure TopicInfo where
  topic_id : Nat
  topic_name : String
  message_type : String
  md5sum : String
  buffer_size : Nat
  deriving DecidableEq, Repr

/-- A live `Subscriber` object as the session's `subscribers` dictionary
stores it: its topic, wire id, and the `_type` string of the resolved
message class (for a successfully constructed subscriber this is the
`message_type` it was created from, per the ROS naming convention). -/
structure Sub where
  topic : String
  id : Nat
  msgType : String
  deriving DecidableEq, Repr

/-- `Subscriber.__init__` (lines 134-145), parameterised by the external
message-type reflector: `resolve ty` is the `_md5sum` of the class
`load_message` finds for `ty` (`none` when the import fails).  Construction
succeeds only when the resolved md5 matches the `TopicInfo`'s; otherwise the
constructor raises, which `setupSubscriber` catches. -/
def mkSubscriber (resolve : String → Option String) (ti : TopicInfo) :
    Option Sub :=
  match resolve ti.message_type with
  | none => none
  | some md5 =>
    if md5 = ti.md5sum then
      some { topic := ti.topic_name, id := ti.topic_id, msgType := ti.message_type }
    else none

/-- Registry events of `setupSubscriber`. -/
inductive SubEvent where
  /-- a new `Subscriber` stored under its topic name -/
  | created (name : String)
  /-- `Subscriber.unregister` called on the previous binding -/
  | unregistered (name : String)
  deriving DecidableEq, Repr

/-- Python dict assignment `d[k] = v` on an association list already
containing the key `k`. -/
def dictReplace (tbl : List (String × Sub)) (k : String) (v : Sub) :
    List (String × Sub) :=
  tbl.map fun p => if p.1 = k then (k, v) else p

/-- `SerialClient.setupSubscriber` (lines 787-805) acting on the
`subscribers` dictionary: create and store when the topic name is new;
do nothing when the name exists with the same message type; unregister the
old subscriber and install a new one when the type changed.  A constructor
exception is caught and logged, leaving the dictionary as it stands at that
point. -/
def setupSubscriber (resolve : String → Option String)
    (tbl : List (String × Sub)) (ti : TopicInfo) :
    List (String × Sub) × List SubEvent :=
  match tbl.lookup ti.topic_name with
  | none =>
    match mkSubscriber resolve ti with
    | some sub => ((ti.topic_name, sub) :: tbl, [.created ti.topic_name])
    | none => (tbl, [])
  | some old =>
    if ti.message_type ≠ old.msgType then
      -- line 799: the old subscriber is unregistered before the new
      -- constructor runs; if that constructor then raises, the stale entry
      -- stays in the dictionary
      match mkSubscriber resolve ti with
      | some sub =>
        (dictReplace tbl ti.topic_name sub,
         [.unregistered ti.topic_name, .created ti.topic_name])
      | none => (tbl, [.unregistered ti.topic_name])
    else (tbl, [])

theorem decodeRun_ioErr {bs : List Nat} {step : String}
    (h : readAttempt bs = .ioErr step) : decodeRun bs = [] := by
  rw [decodeRun.eq_def]
  split
  · rfl
  · rename_i evs rest h'; rw [h] at h'; cases h'
  · rename_i t p rest h'; rw [h] at h'; cases h'

theorem decodeRun_cont {bs rest : List Nat} {evs : List Event}
    (h : readAttempt bs = .cont evs rest) :
    decodeRun bs = evs ++ decodeRun rest := by
  rw [decodeRun.eq_def]
  split
  · rename_i step h'; rw [h] at h'; cases h'
  · rename_i evs' rest' h'; rw [h] at h'
    cases h'; rfl
  · rename_i t p rest' h'; rw [h] at h'; cases h'

theorem decodeRun_frame {bs rest p : List Nat} {t : Nat}
    (h : readAttempt bs = .frame t p rest) :
    decodeRun bs = .dispatched t p :: decodeRun rest := by
  rw [decodeRun.eq_def]
  split
  · rename_i step h'; rw [h] at h'; cases h'
  · rename_i evs' rest' h'; rw [h] at h'; cases h'
  · rename_i t' p' rest' h'; rw [h] at h'
    cases h'; rfl

theorem decodeRun_nil : decodeRun [] = [] :=
  @decodeRun_ioErr [] "syncflag" rfl

/-- The unconsumed input of an attempt is a suffix of the input. -/
theorem readAttempt_rest_suffix :
    ∀ (bs r : List Nat), (readAttempt bs).rest? = some r → r <:+ bs := by
  intro bs r h
  match bs with
  | [] => simp [readAttempt, Attempt.rest?] at h
  | b :: tl =>
    simp only [readAttempt] at h
    split at h
    · simp only [Attempt.rest?, Option.some.injEq] at h
      subst h; exact List.suffix_cons b tl
    · match tl with
      | [] => simp [Attempt.rest?] at h
      | v :: r2 =>
        simp only at h
        split at h
        · simp only [Attempt.rest?, Option.some.injEq] at h
          subst h
          exact (List.suffix_cons _ _).trans (List.suffix_cons _ _)
        · match r2 with
          | [] => simp [Attempt.rest?] at h
          | [x] => simp [Attempt.rest?] at h
          | l0 :: l1 :: cl :: r3 =>
            simp only at h
            split at h
            · simp only [Attempt.rest?, Option.some.injEq] at h
              subst h
              exact ((((List.suffix_cons _ _).trans
                (List.suffix_cons _ _)).trans
                (List.suffix_cons _ _)).trans
                (List.suffix_cons _ _)).trans (List.suffix_cons _ _)
            · match r3 with
              | [] => simp [Attempt.rest?] at h
              | [x] => simp [Attempt.rest?] at h
              | t0 :: t1 :: r4 =>
                simp only at h
                split at h
                · simp [Attempt.rest?] at h
                · split at h
                  · simp [Attempt.rest?] at h
                  · split at h
                    · simp [Attempt.rest?] at h
                    · rename_i chk r5 heq
                      split at h <;>
                        · simp only [Attempt.rest?, Option.some.injEq] at h
                          subst h
                          refine ⟨b :: v :: l0 :: l1 :: cl :: t0 :: t1 ::
                            (r4.take (l0 + 256 * l1) ++ [chk]), ?_⟩
                          simp only [List.cons_append, List.append_assoc,
                            List.singleton_append, List.nil_append]
                          rw [← heq, List.take_append_drop]

/-- A `continue` never carries a dispatch event: all events of a `cont`
attempt are diagnostics or log lines. -/
theorem readAttempt_cont_no_dispatch {bs rest : List Nat} {evs : List Event}
    (h : readAttempt bs = .cont evs rest) :
    ∀ t p, Event.dispatched t p ∉ evs := by
  intro t p
  match bs with
  | [] => simp [readAttempt] at h
  | b :: tl =>
    simp only [readAttempt] at h
    split at h
    · cases h; simp
    · match tl with
      | [] => simp at h
      | v :: r2 =>
        simp only at h
        split at h
        · cases h; simp
        · match r2 with
          | [] => simp at h
          | [x] => simp at h
          | l0 :: l1 :: cl :: r3 =>
            simp only at h
            split at h
            · cases h; simp
            · match r3 with
              | [] => simp at h
              | [x] => simp at h
              | t0 :: t1 :: r4 =>
                simp only at h
                split at h
                · cases h
                · split at h
                  · cases h
                  · split at h
                    · cases h
                    · split at h
                      · cases h
                      · cases h; simp

/-- Soundness of a dispatched frame: the input literally contains — as the
consumed prefix — a frame whose length bytes `l0, l1` encode the payload
length, whose topic bytes `t0, t1` encode the topic id, and whose actual
checksum bytes `cl` and `cp` satisfy both checksum invariants. -/
theorem readAttempt_frame_spec {bs p rest : List Nat} {t : Nat}
    (h : readAttempt bs = .frame t p rest) :
    ∃ l0 l1 cl t0 t1 cp,
      (255 :: 254 :: l0 :: l1 :: cl :: t0 :: t1 :: (p ++ [cp])) ++ rest = bs
      ∧ t = t0 + 256 * t1
      ∧ p.length = l0 + 256 * l1
      ∧ (l0 + l1 + cl) % 256 = 255
      ∧ (t0 + t1 + p.sum + cp) % 256 = 255 := by
  match bs with
  | [] => simp [readAttempt] at h
  | b :: tl =>
    simp only [readAttempt] at h
    split at h
    · cases h
    · rename_i hb255
      match tl with
      | [] => simp at h
      | v :: r2 =>
        simp only at h
        split at h
        · cases h
        · rename_i hv254
          match r2 with
          | [] => simp at h
          | [x] => simp at h
          | l0 :: l1 :: cl :: r3 =>
            simp only at h
            split at h
            · cases h
            · rename_i hlenchk
              match r3 with
              | [] => simp at h
              | [x] => simp at h
              | t0 :: t1 :: r4 =>
                simp only at h
                split at h
                · cases h
                · split at h
                  · cases h
                  · rename_i hnl1 hr4len
                    split at h
                    · cases h
                    · rename_i chk r5 heq
                      split at h
                      · rename_i hchk
                        obtain ⟨ht, hp, hr⟩ := Attempt.frame.inj h
                        subst ht; subst hp; subst hr
                        have hb' : b = 255 := not_not.mp hb255
                        have hv' : v = 254 := not_not.mp hv254
                        subst hb'; subst hv'
                        refine ⟨l0, l1, cl, t0, t1, chk, ?_, rfl, ?_,
                          not_not.mp hlenchk, hchk⟩
                        · simp only [List.cons_append, List.append_assoc,
                            List.singleton_append, List.nil_append]
                          rw [← heq, List.take_append_drop]
                        · simp only [List.length_take]
                          omega
                      · cases h

/-- Reading an explicitly laid-out frame whose checksums are correct yields
exactly its topic id and payload and consumes the whole input. -/
theorem readAttempt_explicit {l0 l1 cl t0 t1 chk T : Nat} {p : List Nat}
    (hchk1 : (l0 + l1 + cl) % 256 = 255)
    (hl1 : l1 < 128)
    (hlen : p.length = l0 + 256 * l1)
    (hchk2 : (t0 + t1 + p.sum + chk) % 256 = 255)
    (hT : T = t0 + 256 * t1) :
    readAttempt (255 :: 254 :: l0 :: l1 :: cl :: t0 :: t1 :: (p ++ [chk]))
      = .frame T p [] := by
  have hd : (p ++ [chk]).drop (l0 + 256 * l1) = [chk] := by
    rw [← hlen, List.drop_left]
  have htk : (p ++ [chk]).take (l0 + 256 * l1) = p := by
    rw [← hlen, List.take_left]
  have hln : ¬ ((p ++ [chk]).length < l0 + 256 * l1) := by
    simp only [List.length_append, List.length_cons, List.length_nil]
    omega
  have hnl1 : ¬ (128 ≤ l1) := by omega
  simp only [readAttempt, ne_eq, not_true_eq_false, if_false, ite_false,
    reduceIte, hchk1, hnl1, hln, hd, htk, hchk2, hT]

/-- `readAttempt` applied to the output of `encodeFrame`. -/
theorem readAttempt_encodeFrame (t : Nat) (p : List Nat)
    (ht : t < 32768) (hp : p.length < 32768) :
    readAttempt (encodeFrame t p) = .frame t p [] := by
  have he : encodeFrame t p
      = 255 :: 254 :: (p.length % 256) :: (p.length / 256) ::
        (255 - ((p.length % 256 + p.length / 256) % 256)) ::
        (t % 256) :: (t / 256) ::
        (p ++ [255 - ((t % 256 + t / 256 + p.sum) % 256)]) := by
    simp [encodeFrame]
  rw [he]
  exact readAttempt_explicit (by omega) (by omega) (by omega) (by omega) (by omega)

/-- Reading a frame whose three length bytes fail the length checksum drops
it: only a log line, and the scan resumes right after the checksum byte. -/
theorem readAttempt_bad_length_checksum {l0 l1 cl : Nat} {rest : List Nat}
    (h : (l0 + l1 + cl) % 256 ≠ 255) :
    readAttempt (255 :: 254 :: l0 :: l1 :: cl :: rest)
      = .cont [.logWrongLengthChecksum] rest := by
  simp [readAttempt, h]

/-- Reading a correctly laid-out frame whose payload checksum byte fails the
payload checksum drops it: only a log line, and the scan resumes right after
the checksum byte. -/
theorem readAttempt_bad_payload_checksum {l0 l1 cl t0 t1 cp : Nat}
    {p rest : List Nat}
    (h1 : (l0 + l1 + cl) % 256 = 255)
    (hl1 : l1 < 128)
    (hplen : p.length = l0 + 256 * l1)
    (h4 : (t0 + t1 + p.sum + cp) % 256 ≠ 255) :
    readAttempt (255 :: 254 :: l0 :: l1 :: cl :: t0 :: t1 :: (p ++ cp :: rest))
      = .cont [.logWrongPayloadChecksum] rest := by
  have hd : (p ++ cp :: rest).drop (l0 + 256 * l1) = cp :: rest := by
    rw [← hplen]
    exact List.drop_left _ _
  have htk : (p ++ cp :: rest).take (l0 + 256 * l1) = p := by
    rw [← hplen]
    exact List.take_left _ _
  have hln : ¬ ((p ++ cp :: rest).length < l0 + 256 * l1) := by
    simp only [List.length_append, List.length_cons]
    omega
  have hnl1 : ¬ (128 ≤ l1) := by omega
  simp only [readAttempt, ne_eq, not_true_eq_false, if_false, ite_false,
    reduceIte, h1, hnl1, hln, hd, htk, h4]

/-- Every dispatch of the decoder comes from an actual occurrence, in the
input, of a frame whose two checksum bytes validate (general soundness lemma
behind claim C3). -/
theorem decodeRun_dispatch_sound (bs : List Nat) :
    ∀ t p, Event.dispatched t p ∈ decodeRun bs →
      ∃ l0 l1 cl t0 t1 cp,
        (255 :: 254 :: l0 :: l1 :: cl :: t0 :: t1 :: (p ++ [cp])) <:+: bs
        ∧ t = t0 + 256 * t1
        ∧ p.length = l0 + 256 * l1
        ∧ (l0 + l1 + cl) % 256 = 255
        ∧ (t0 + t1 + p.sum + cp) % 256 = 255 := by
  intro t p hmem
  match h : readAttempt bs with
  | .ioErr step =>
    rw [decodeRun_ioErr h] at hmem
    simp at hmem
  | .cont evs rest =>
    rw [decodeRun_cont h] at hmem
    rcases List.mem_append.mp hmem with h1 | h2
    · exact absurd h1 (readAttempt_cont_no_dispatch h t p)
    · have hsuf := readAttempt_rest_suffix bs rest (by rw [h]; rfl)
      obtain ⟨l0, l1, cl, t0, t1, cp, hinf, h3, h4, h5, h6⟩ :=
        decodeRun_dispatch_sound rest t p h2
      exact ⟨l0, l1, cl, t0, t1, cp, hinf.trans hsuf.isInfix, h3, h4, h5, h6⟩
  | .frame t' p' rest =>
    rw [decodeRun_frame h] at hmem
    rcases List.mem_cons.mp hmem with h1 | h2
    · obtain ⟨rfl, rfl⟩ := Event.dispatched.inj h1
      obtain ⟨l0, l1, cl, t0, t1, cp, heqbs, h3, h4, h5, h6⟩ :=
        readAttempt_frame_spec h
      exact ⟨l0, l1, cl, t0, t1, cp, ⟨[], rest, by simpa using heqbs⟩,
        h3, h4, h5, h6⟩
    · have hsuf := readAttempt_rest_suffix bs rest (by rw [h]; rfl)
      obtain ⟨l0, l1, cl, t0, t1, cp, hinf, h3, h4, h5, h6⟩ :=
        decodeRun_dispatch_sound rest t p h2
      exact ⟨l0, l1, cl, t0, t1, cp, hinf.trans hsuf.isInfix, h3, h4, h5, h6⟩
termination_by bs.length
decreasing_by
  · exact readAttempt_rest_length bs rest (by rw [h]; rfl)
  · exact readAttempt_rest_length bs rest (by rw [h]; rfl)

/-- Replacing the value stored under a present key makes later lookups of
that key return the new value. -/
theorem lookup_dictReplace (k : String) (v : Sub) :
    ∀ (tbl : List (String × Sub)), (tbl.lookup k).isSome →
      (dictReplace tbl k v).lookup k = some v := by
  intro tbl h
  induction tbl with
  | nil => simp [List.lookup] at h
  | cons hd tl ih =>
    obtain ⟨a, b⟩ := hd
    by_cases hk : a = k
    · subst hk
      simp only [dictReplace, List.map_cons]
      simp [List.lookup]
    · have hne : (k == a) = false := by
        simp only [beq_eq_false_iff_ne, ne_eq]
        exact fun e => hk e.symm
      simp only [List.lookup, hne, cond_false] at h
      simp only [dictReplace, List.map_cons]
      rw [if_neg hk]
      simp only [List.lookup, hne]
      simpa [dictReplace] using ih h

/-- Claim C1 (counterexample): encoding `(topic_id=42, payload=[1,2,3])` does
*not* produce the eight bytes `FF FE 03 00 FC 2A 00 30` stated by the spec,
and decoding those eight bytes dispatches nothing (the reader, having read
length 3, runs out of input mid-frame and aborts with `IOError`), rather
than yielding `(42, [1,2,3])`. -/
theorem frame42_literal_bytes_refuted :
    encodeFrame 42 [1, 2, 3] ≠ [0xFF, 0xFE, 0x03, 0x00, 0xFC, 0x2A, 0x00, 0x30]
    ∧ decodeRun [0xFF, 0xFE, 0x03, 0x00, 0xFC, 0x2A, 0x00, 0x30] = [] :=
  ⟨by decide, @decodeRun_ioErr [0xFF, 0xFE, 0x03, 0x00, 0xFC, 0x2A, 0x00, 0x30] "data" (by decide)⟩

/-- Claim C1 (amended): encoding `(topic_id=42, payload=[0x01,0x02,0x03])`
produces exactly the eleven bytes `FF FE 03 00 FC 2A 00 01 02 03 CF` — the
three payload bytes sit between the topic id and the final checksum, and the
payload checksum is `255 - ((0x2A + 0x00 + 0x01 + 0x02 + 0x03) mod 256) =
0xCF` — and decoding those bytes dispatches exactly `(42, [1, 2, 3])`. -/
theorem frame42_roundtrip_corrected :
    encodeFrame 42 [1, 2, 3]
      = [0xFF, 0xFE, 0x03, 0x00, 0xFC, 0x2A, 0x00, 0x01, 0x02, 0x03, 0xCF]
    ∧ decodeRun [0xFF, 0xFE, 0x03, 0x00, 0xFC, 0x2A, 0x00, 0x01, 0x02, 0x03, 0xCF]
      = [.dispatched 42 [1, 2, 3]] := by
  refine ⟨by decide, ?_⟩
  rw [@decodeRun_frame [0xFF, 0xFE, 0x03, 0x00, 0xFC, 0x2A, 0x00, 0x01, 0x02, 0x03, 0xCF]
    [] [1, 2, 3] 42 (by decide), decodeRun_nil]

/-- Claim C2: any `(topic, payload)` pair the encoder accepts — in
particular, any pair passing the subscribe-buffer check — decodes back to
exactly itself: `decode (encode f) = f`, with a single dispatch and no
residual events. -/
theorem encode_decode_roundtrip (buffer_in : Int) (t : Nat) (p out : List Nat)
    (h : _send buffer_in t p = .ok out) :
    decodeRun out = [.dispatched t p] := by
  unfold _send at h
  split at h
  · cases h
  · split at h
    · cases h
    · rename_i hrange
      push_neg at hrange
      cases h
      rw [decodeRun_frame (readAttempt_encodeFrame t p hrange.2 hrange.1),
        decodeRun_nil]

/-- Witness for C2 at `buffer_in = -1` (unset), `topic = 42`,
`payload = [1,2,3]`. -/
theorem encode_decode_roundtrip_witness :
    decodeRun (encodeFrame 42 [1, 2, 3]) = [.dispatched 42 [1, 2, 3]] :=
  encode_decode_roundtrip (-1) 42 [1, 2, 3] (encodeFrame 42 [1, 2, 3]) (by rfl)

/-- Claim C3: whatever byte sequence is fed to the reader, every
`(topic_id, payload)` pair it dispatches comes from an *actual* frame in the
input — a contiguous run of input bytes `FF FE l0 l1 cl t0 t1 payload cp`
whose length bytes encode `len(payload)`, whose topic bytes encode the
dispatched topic id, and whose two checksum bytes, the very bytes present in
the input, satisfy `(lo(L) + hi(L) + CL) mod 256 = 255` and
`(lo(T) + hi(T) + sum(payload) + CP) mod 256 = 255`.  Conversely, frames
failing either check are never dispatched: a frame whose three length bytes
fail the length checksum, or a well-formed frame whose payload checksum byte
fails the payload checksum, contributes only a log event and the reader
resumes with the remaining input. -/
theorem decode_yields_only_checksum_valid_frames :
    (∀ (bs : List Nat) (t : Nat) (p : List Nat),
      Event.dispatched t p ∈ decodeRun bs →
      ∃ l0 l1 cl t0 t1 cp,
        (255 :: 254 :: l0 :: l1 :: cl :: t0 :: t1 :: (p ++ [cp])) <:+: bs
        ∧ t = t0 + 256 * t1
        ∧ p.length = l0 + 256 * l1
        ∧ (l0 + l1 + cl) % 256 = 255
        ∧ (t0 + t1 + p.sum + cp) % 256 = 255)
    ∧ (∀ (l0 l1 cl : Nat) (rest : List Nat),
        (l0 + l1 + cl) % 256 ≠ 255 →
        decodeRun (255 :: 254 :: l0 :: l1 :: cl :: rest)
          = .logWrongLengthChecksum :: decodeRun rest)
    ∧ (∀ (l0 l1 cl t0 t1 cp : Nat) (p rest : List Nat),
        (l0 + l1 + cl) % 256 = 255 → l1 < 128 →
        p.length = l0 + 256 * l1 →
        (t0 + t1 + p.sum + cp) % 256 ≠ 255 →
        decodeRun (255 :: 254 :: l0 :: l1 :: cl :: t0 :: t1 :: (p ++ cp :: rest))
          = .logWrongPayloadChecksum :: decodeRun rest) := by
  refine ⟨fun bs t p hmem => decodeRun_dispatch_sound bs t p hmem, ?_, ?_⟩
  · intro l0 l1 cl rest h
    rw [decodeRun_cont (readAttempt_bad_length_checksum h)]
    rfl
  · intro l0 l1 cl t0 t1 cp p rest h1 hl1 hplen h4
    rw [decodeRun_cont (readAttempt_bad_payload_checksum h1 hl1 hplen h4)]
    rfl

/-- Witness for C3: its dispatch part on the concrete valid frame for
`(42, [1,2,3])`, and its two drop parts on a concrete length-checksum
failure and a concrete payload-checksum failure. -/
theorem decode_yields_only_checksum_valid_frames_witness :
    (∃ l0 l1 cl t0 t1 cp,
      (255 :: 254 :: l0 :: l1 :: cl :: t0 :: t1 :: (([1, 2, 3] : List Nat) ++ [cp]))
        <:+: [0xFF, 0xFE, 0x03, 0x00, 0xFC, 0x2A, 0x00, 0x01, 0x02, 0x03, 0xCF]
      ∧ 42 = t0 + 256 * t1
      ∧ ([1, 2, 3] : List Nat).length = l0 + 256 * l1
      ∧ (l0 + l1 + cl) % 256 = 255
      ∧ (t0 + t1 + ([1, 2, 3] : List Nat).sum + cp) % 256 = 255)
    ∧ decodeRun [255, 254, 0, 0, 0] = [.logWrongLengthChecksum]
    ∧ decodeRun (255 :: 254 :: 1 :: 0 :: 254 :: 0 :: 0 ::
        (([0] : List Nat) ++ 0 :: []))
      = [.logWrongPayloadChecksum] := by
  refine ⟨?_, ?_, ?_⟩
  · exact decode_yields_only_checksum_valid_frames.1
      [0xFF, 0xFE, 0x03, 0x00, 0xFC, 0x2A, 0x00, 0x01, 0x02, 0x03, 0xCF]
      42 [1, 2, 3]
      (by rw [@decodeRun_frame [0xFF, 0xFE, 0x03, 0x00, 0xFC, 0x2A, 0x00, 0x01, 0x02, 0x03, 0xCF]
            [] [1, 2, 3] 42 (by decide)]
          exact List.mem_cons_self _ _)
  · rw [decode_yields_only_checksum_valid_frames.2.1 0 0 0 [] (by decide),
      decodeRun_nil]
  · rw [decode_yields_only_checksum_valid_frames.2.2 1 0 254 0 0 0 [0] []
      (by decide) (by decide) (by decide) (by decide), decodeRun_nil]

/-- Claim C4 (code bug): with the subscribe-buffer size negotiated to 1, a
dequeued `(topic, payload)` tuple whose payload is longer than the buffer is
not written — but instead of being dropped with an error log, the `_send`
error path raises `NameError` (its log line interpolates the undefined name
`msg`), which `processWriteQueue` does not catch: the writer thread dies and
the remaining queue items are never processed. -/
theorem oversize_message_kills_writer :
    _send 1 0 [0, 0] = .error .nameError
    ∧ processWriteQueue 1 [.msg 0 [0, 0], .raw requestTopicsBytes]
        = ([], some .nameError) :=
  ⟨rfl, rfl⟩

/-- Claim C5 (counterexample): the version byte `0xFD` read after the sync
marker is *not* described as unknown/unrecognized — the
`protocol_ver_msgs` dictionary has a dedicated entry mapping it to
`Some future rosserial version`. -/
theorem protocol_mismatch_fd_refuted :
    decodeRun [0xFF, 0xFD]
      = [.diagMismatchedProtocol,
         .logProtocolInfo "Protocol version of client is Some future rosserial version"]
    ∧ found_ver_msg 0xFD ≠ "Protocol version of client is unrecognized" := by
  constructor
  · rw [@decodeRun_cont [0xFF, 0xFD] []
      [.diagMismatchedProtocol,
       .logProtocolInfo "Protocol version of client is Some future rosserial version"]
      (by decide), decodeRun_nil]
    rfl
  · decide

/-- Claim C5 (amended): for every version byte `v ≠ 0xFE` read after the
`0xFF` sync marker, the reader emits the `ProtocolMismatch` diagnostic
together with the human-readable mapping — `0xFF` → Rev 0, `0xFE` → Rev 1,
`0xFD` → a dedicated "Some future rosserial version" entry, and every other
byte → unrecognized — and then resumes the sync search on the remaining
input without dispatching anything. -/
theorem protocol_mismatch_mapping_corrected :
    (∀ (v : Nat) (rest : List Nat), v ≠ 254 →
      decodeRun (255 :: v :: rest)
        = .diagMismatchedProtocol :: .logProtocolInfo (found_ver_msg v)
            :: decodeRun rest)
    ∧ found_ver_msg 255 = "Protocol version of client is Rev 0 (rosserial 0.4 and earlier)"
    ∧ found_ver_msg 254 = "Protocol version of client is Rev 1 (rosserial 0.5+)"
    ∧ found_ver_msg 253 = "Protocol version of client is Some future rosserial version"
    ∧ (∀ b : Nat, b ≠ 255 → b ≠ 254 → b ≠ 253 →
        found_ver_msg b = "Protocol version of client is unrecognized") := by
  refine ⟨?_, by decide, by decide, by decide, ?_⟩
  · intro v rest hv
    have ha : readAttempt (255 :: v :: rest)
        = .cont [.diagMismatchedProtocol, .logProtocolInfo (found_ver_msg v)]
            rest := by
      simp [readAttempt, hv]
    rw [decodeRun_cont ha]
    rfl
  · intro b h1 h2 h3
    simp [found_ver_msg, protocol_ver_msgs, h1, h2, h3]

/-- Witness for the amended C5 at `v = 0` with a follow-up empty stream. -/
theorem protocol_mismatch_mapping_corrected_witness :
    decodeRun [255, 0]
      = [.diagMismatchedProtocol, .logProtocolInfo (found_ver_msg 0)]
    ∧ found_ver_msg 0 = "Protocol version of client is unrecognized" := by
  constructor
  · rw [protocol_mismatch_mapping_corrected.1 0 [] (by decide), decodeRun_nil]
  · exact protocol_mismatch_mapping_corrected.2.2.2.2 0 (by decide) (by decide)
      (by decide)

/-- Claim C6: as `__init__` leaves the session, the write queue holds exactly
the *request topics* control frame, so the first (and only) write the writer
thread performs before anything else is enqueued is the literal eight bytes
`FF FE 00 00 FF 00 00 FF` — which is precisely the encoding of the frame
with `topic_id = 0` and empty payload. -/
theorem first_frame_is_request_topics :
    (processWriteQueue initBufferIn initWriteQueue).1.head?
      = some [0xFF, 0xFE, 0x00, 0x00, 0xFF, 0x00, 0x00, 0xFF]
    ∧ requestTopicsBytes = encodeFrame 0 []
    ∧ (processWriteQueue initBufferIn initWriteQueue).2 = none := by
  exact ⟨by decide, by decide, by decide⟩

/-- Claim C10: the negotiated buffer sizes are write-once: both start at
`-1`; a first install (reported size being a `u32`, hence nonnegative) fixes
the value; once the stored value is nonnegative every later call — whatever
size it carries — leaves it unchanged. -/
theorem buffer_sizes_write_once :
    initBufferOut = -1 ∧ initBufferIn = -1
    ∧ (∀ size : Nat, setPublishSize initBufferOut size = size
        ∧ setSubscribeSize initBufferIn size = size)
    ∧ (∀ b : Int, 0 ≤ b → ∀ size : Nat,
        setPublishSize b size = b ∧ setSubscribeSize b size = b)
    ∧ (∀ size size2 : Nat,
        setPublishSize (setPublishSize initBufferOut size) size2 = (size : Int)
        ∧ setSubscribeSize (setSubscribeSize initBufferIn size) size2 = (size : Int)) := by
  refine ⟨rfl, rfl, ?_, ?_, ?_⟩
  · intro size
    constructor <;> simp [setPublishSize, setSubscribeSize, initBufferOut, initBufferIn]
  · intro b hb size
    constructor <;>
      · simp only [setPublishSize, setSubscribeSize]
        rw [if_neg (by omega)]
  · intro size size2
    have h1 : setPublishSize initBufferOut size = (size : Int) := by
      simp [setPublishSize, initBufferOut]
    have h2 : setSubscribeSize initBufferIn size = (size : Int) := by
      simp [setSubscribeSize, initBufferIn]
    rw [h1, h2]
    constructor <;>
      · simp only [setPublishSize, setSubscribeSize]
        rw [if_neg (by omega)]

/-- Witness for C10 at a fixed value `5` and a later install reporting `7`. -/
theorem buffer_sizes_write_once_witness :
    setPublishSize 5 7 = 5 ∧ setSubscribeSize 5 7 = 5 :=
  buffer_sizes_write_once.2.2.2.1 5 (by decide) 7

/-- The frame-reading part returns (raising `IOError`) only on a short read
from a nonempty available stream. -/
theorem readBody_ret_ioErr {s : SessionState} {now : Nat} {avail : List Nat}
    {evs0 : List Event} {s' : SessionState} {evs : List Event}
    (h : readBody s now avail evs0 = .ret s' evs) :
    avail ≠ [] ∧ ∃ step, readAttempt avail = .ioErr step := by
  unfold readBody at h
  split at h
  · cases h
  · rename_i hne
    split at h
    · rename_i step heq
      exact ⟨by simpa [List.isEmpty_iff] using hne, step, heq⟩
    · cases h
    · split at h
      · cases h
      · cases h

/-- The frame-reading part never touches `lastsync`. -/
theorem readBody_lastsync (s : SessionState) (now : Nat) (avail : List Nat)
    (evs0 : List Event) :
    (readBody s now avail evs0).state.lastsync = s.lastsync := by
  unfold readBody
  split
  · rfl
  · split
    · rfl
    · rfl
    · split
      · rfl
      · rfl

/-- The frame-reading part only appends to the write queue. -/
theorem readBody_queue_prefix (s : SessionState) (now : Nat) (avail : List Nat)
    (evs0 : List Event) :
    s.writeQueue <+: (readBody s now avail evs0).state.writeQueue := by
  unfold readBody
  split
  · exact List.prefix_refl _
  · split
    · exact List.prefix_refl _
    · exact List.prefix_refl _
    · split
      · exact List.prefix_refl _
      · exact List.prefix_append _ _

/-- The frame-reading part only appends to the event trace it was handed. -/
theorem readBody_events_append (s : SessionState) (now : Nat)
    (avail : List Nat) (evs0 : List Event) :
    ∃ tail, (readBody s now avail evs0).events = evs0 ++ tail := by
  unfold readBody
  split
  · exact ⟨[], by simp [IterResult.events]⟩
  · split
    · exact ⟨_, rfl⟩
    · exact ⟨_, rfl⟩
    · split
      · exact ⟨_, rfl⟩
      · exact ⟨_, rfl⟩

/-- If no read fails, the frame-reading part continues the loop. -/
theorem readBody_cont_total {avail : List Nat}
    (s : SessionState) (now : Nat) (evs0 : List Event)
    (hno : ∀ step, readAttempt avail ≠ .ioErr step) :
    ∃ s2 rest evs, readBody s now avail evs0 = .cont s2 rest evs := by
  unfold readBody
  split
  · exact ⟨_, _, _, rfl⟩
  · split
    · rename_i step heq
      exact absurd heq (hno step)
    · exact ⟨_, _, _, rfl⟩
    · split
      · exact ⟨_, _, _, rfl⟩
      · exact ⟨_, _, _, rfl⟩

/-- The `synced` flag after the frame-reading part: it is true exactly when
it already was, or a checksum-valid frame was just read. -/
theorem readBody_synced_iff (s : SessionState) (now : Nat) (avail : List Nat)
    (evs0 : List Event) :
    ((readBody s now avail evs0).state.synced = true
      ↔ s.synced = true ∨ ∃ t p rest, readAttempt avail = .frame t p rest) := by
  unfold readBody
  split
  · rename_i hemp
    have hav : avail = [] := by simpa [List.isEmpty_iff] using hemp
    subst hav
    simp only [IterResult.state]
    constructor
    · exact Or.inl
    · rintro (h | ⟨t, p, rest, h⟩)
      · exact h
      · simp [readAttempt] at h
  · split
    · rename_i step heq
      simp only [IterResult.state]
      constructor
      · exact Or.inl
      · rintro (h | ⟨t, p, rest, h⟩)
        · exact h
        · rw [heq] at h; cases h
    · rename_i evs2 rest heq
      simp only [IterResult.state]
      constructor
      · exact Or.inl
      · rintro (h | ⟨t, p, rest', h⟩)
        · exact h
        · rw [heq] at h; cases h
    · rename_i t p rest heq
      split
      · constructor
        · intro _; exact Or.inr ⟨t, p, rest, heq⟩
        · intro _; simp [IterResult.state]
      · constructor
        · intro _; exact Or.inr ⟨t, p, rest, heq⟩
        · intro _; simp [IterResult.state]

/-- A reader-loop iteration executes `return` only when the sync budget is
exhausted with `synced` set, or a read from the nonempty input failed. -/
theorem readerIteration_ret (s : SessionState) (now : Nat) (avail : List Nat)
    (s' : SessionState) (evs : List Event)
    (h : readerIteration s now avail = .ret s' evs) :
    (3 * s.timeout < now - s.lastsync ∧ s.synced = true)
    ∨ (avail ≠ [] ∧ ∃ step, readAttempt avail = .ioErr step) := by
  unfold readerIteration at h
  split at h
  · rename_i hb
    split at h
    · rename_i hs
      exact Or.inl ⟨hb, hs⟩
    · exact Or.inr (readBody_ret_ioErr h)
  · exact Or.inr (readBody_ret_ioErr h)

/-- Behaviour of a reader-loop iteration entered with the sync budget
exhausted while not yet synced: `NO_SYNC` diagnostic, *request topics*
re-enqueued, `lastsync` refreshed, and — unless a read fails — continue. -/
theorem readerIteration_nosync (s : SessionState) (now : Nat)
    (avail : List Nat)
    (hb : 3 * s.timeout < now - s.lastsync) (hs : s.synced = false) :
    (readerIteration s now avail).state.lastsync = now
    ∧ Event.diagNoSync ∈ (readerIteration s now avail).events
    ∧ (s.writeQueue ++ [.raw requestTopicsBytes])
        <+: (readerIteration s now avail).state.writeQueue
    ∧ ((∀ step, readAttempt avail ≠ .ioErr step) →
        ∃ s2 rest evs, readerIteration s now avail = .cont s2 rest evs) := by
  unfold readerIteration
  rw [if_pos hb, if_neg (by simp [hs])]
  refine ⟨?_, ?_, ?_, ?_⟩
  · rw [readBody_lastsync]
  · obtain ⟨tail, htail⟩ := readBody_events_append
      { s with lastsyncLost := now
               writeQueue := s.writeQueue ++ [.raw requestTopicsBytes]
               lastsync := now } now avail [.logUnableToSync, .diagNoSync]
    rw [htail]
    simp
  · exact readBody_queue_prefix
      { s with lastsyncLost := now
               writeQueue := s.writeQueue ++ [.raw requestTopicsBytes]
               lastsync := now } now avail [.logUnableToSync, .diagNoSync]
  · intro hno
    exact readBody_cont_total _ now _ hno

/-- The `synced` flag across a whole reader-loop iteration. -/
theorem readerIteration_synced_iff (s : SessionState) (now : Nat)
    (avail : List Nat) :
    ((readerIteration s now avail).state.synced = true
      ↔ s.synced = true ∨ ∃ t p rest, readAttempt avail = .frame t p rest) := by
  unfold readerIteration
  split
  · split
    · rename_i hs
      simp only [IterResult.state]
      exact ⟨fun _ => Or.inl hs, fun _ => hs⟩
    · rw [readBody_synced_iff]
  · exact readBody_synced_iff s now avail []

/-- Claim C7: a reader-loop iteration returns (terminating the session) only
when the sync budget is exhausted while previously synced, or a transport
read failed mid-frame (`IOError`); entered with the budget exhausted while
not yet synced it instead emits the `NO_SYNC` diagnostic, re-enqueues the
*request topics* frame, refreshes `lastsync` to the current time, and — as
long as no read error follows in the same iteration — continues. -/
theorem reader_termination_conditions (s : SessionState) (now : Nat)
    (avail : List Nat) :
    (∀ s' evs, readerIteration s now avail = .ret s' evs →
      (3 * s.timeout < now - s.lastsync ∧ s.synced = true)
      ∨ (avail ≠ [] ∧ ∃ step, readAttempt avail = .ioErr step))
    ∧ (3 * s.timeout < now - s.lastsync → s.synced = false →
      (readerIteration s now avail).state.lastsync = now
      ∧ Event.diagNoSync ∈ (readerIteration s now avail).events
      ∧ (s.writeQueue ++ [.raw requestTopicsBytes])
          <+: (readerIteration s now avail).state.writeQueue
      ∧ ((∀ step, readAttempt avail ≠ .ioErr step) →
          ∃ s2 rest evs, readerIteration s now avail = .cont s2 rest evs)) :=
  ⟨fun s' evs h => readerIteration_ret s now avail s' evs h,
   fun hb hs => readerIteration_nosync s now avail hb hs⟩

/-- Witness for C7: an unsynced session whose budget is exhausted refreshes
its sync clock and publishes the `NO_SYNC` diagnostic. -/
theorem reader_termination_conditions_witness :
    (readerIteration (initState 0 1 []) 100 []).state.lastsync = 100
    ∧ Event.diagNoSync ∈ (readerIteration (initState 0 1 []) 100 []).events := by
  have h := (reader_termination_conditions (initState 0 1 []) 100 []).2
    (by decide) rfl
  exact ⟨h.1, h.2.1⟩

/-- Claim C9: within a session the `synced` flag is monotone: it starts
false, becomes true exactly when an iteration reads its first frame with a
valid payload checksum, and no iteration ever resets it to false. -/
theorem synced_flag_monotone :
    (∀ now timeout ids, (initState now timeout ids).synced = false)
    ∧ (∀ s now avail, s.synced = true →
        (readerIteration s now avail).state.synced = true)
    ∧ (∀ s now avail, ((readerIteration s now avail).state.synced = true
        ↔ s.synced = true ∨ ∃ t p rest, readAttempt avail = .frame t p rest)) :=
  ⟨fun _ _ _ => rfl,
   fun s now avail h => (readerIteration_synced_iff s now avail).mpr (Or.inl h),
   readerIteration_synced_iff⟩

/-- Witness for C9: a synced session stays synced across an iteration. -/
theorem synced_flag_monotone_witness :
    (readerIteration
      { synced := true, lastsync := 0, lastsyncLost := 0, lastsyncSuccess := 0
        timeout := 1, writeQueue := [], knownIds := [] } 0 []).state.synced
      = true :=
  synced_flag_monotone.2.1 _ 0 [] rfl

/-- Claim C8: `setupSubscriber`, whenever the subscriber constructor can
succeed (the reflected md5 matches): an unknown topic name creates and
stores a new subscriber; the same name with the same message type leaves the
table untouched (idempotent); the same name with a different message type
first unregisters the old subscriber and then installs the new one in its
place. -/
theorem install_subscriber_cases (resolve : String → Option String)
    (tbl : List (String × Sub)) (ti : TopicInfo)
    (hres : resolve ti.message_type = some ti.md5sum) :
    (tbl.lookup ti.topic_name = none →
      (setupSubscriber resolve tbl ti).1.lookup ti.topic_name
        = some ⟨ti.topic_name, ti.topic_id, ti.message_type⟩
      ∧ (setupSubscriber resolve tbl ti).2 = [.created ti.topic_name])
    ∧ (∀ old, tbl.lookup ti.topic_name = some old →
        old.msgType = ti.message_type →
        setupSubscriber resolve tbl ti = (tbl, []))
    ∧ (∀ old, tbl.lookup ti.topic_name = some old →
        old.msgType ≠ ti.message_type →
        (setupSubscriber resolve tbl ti).1.lookup ti.topic_name
          = some ⟨ti.topic_name, ti.topic_id, ti.message_type⟩
        ∧ (setupSubscriber resolve tbl ti).2
          = [.unregistered ti.topic_name, .created ti.topic_name]) := by
  have hmk : mkSubscriber resolve ti
      = some ⟨ti.topic_name, ti.topic_id, ti.message_type⟩ := by
    simp [mkSubscriber, hres]
  refine ⟨?_, ?_, ?_⟩
  · intro hnone
    simp only [setupSubscriber, hnone, hmk]
    exact ⟨by simp [List.lookup], by simp⟩
  · intro old hold heq
    simp only [setupSubscriber, hold]
    rw [if_neg (by simp [heq])]
  · intro old hold hne
    simp only [setupSubscriber, hold, hmk]
    rw [if_pos (fun e => hne e.symm)]
    exact ⟨lookup_dictReplace _ _ tbl (by rw [hold]; rfl), rfl⟩

/-- Witness for C8: the three branches at concrete inputs — fresh install on
`chatter`, idempotent re-install with the same type, and type-changing
re-install. -/
theorem install_subscriber_cases_witness :
    (setupSubscriber (fun _ => some "m") []
        ⟨5, "chatter", "std_msgs/String", "m", 64⟩).1.lookup "chatter"
      = some ⟨"chatter", 5, "std_msgs/String"⟩
    ∧ setupSubscriber (fun _ => some "m")
        [("chatter", ⟨"chatter", 5, "std_msgs/String"⟩)]
        ⟨6, "chatter", "std_msgs/String", "m", 64⟩
      = ([("chatter", ⟨"chatter", 5, "std_msgs/String"⟩)], [])
    ∧ (setupSubscriber (fun _ => some "m")
        [("chatter", ⟨"chatter", 5, "std_msgs/String"⟩)]
        ⟨6, "chatter", "std_msgs/Int32", "m", 64⟩).2
      = [.unregistered "chatter", .created "chatter"] := by
  refine ⟨?_, ?_, ?_⟩
  · exact ((install_subscriber_cases (fun _ => some "m") []
      ⟨5, "chatter", "std_msgs/String", "m", 64⟩ rfl).1 rfl).1
  · exact (install_subscriber_cases (fun _ => some "m")
      [("chatter", ⟨"chatter", 5, "std_msgs/String"⟩)]
      ⟨6, "chatter", "std_msgs/String", "m", 64⟩ rfl).2.1
      ⟨"chatter", 5, "std_msgs/String"⟩ rfl rfl
  · exact ((install_subscriber_cases (fun _ => some "m")
      [("chatter", ⟨"chatter", 5, "std_msgs/String"⟩)]
      ⟨6, "chatter", "std_msgs/Int32", "m", 64⟩ rfl).2.2
      ⟨"chatter", 5, "std_msgs/String"⟩ rfl (by decide)).2

end RosserialPython
